import Mathlib

/-!
# Verification of the photo-map application core (`src/app.py`)

Shallow embedding of the EXIF GPS/date decoders, the reverse-geocoding
resolver with retry/backoff, the two cache tiers and the address
normalizer.  Python floats are modelled as exact rationals (`ℚ`);
Python exceptions that are caught by the code itself are modelled with
`Option`, and exceptions that would escape a function are modelled with
`Except`.  Case mapping is the ASCII mapping (the tag values the
application reads are ASCII).
-/

set_option autoImplicit false

namespace PhotoMap

/-! ## EXIF rationals and DMS conversion (`_ratio_to_float`, `_dms_to_degrees`) -/

/-- An EXIF rational: a numerator/denominator pair
(`exifread.utils.Ratio` or a `(num, den)` tuple in the source). -/
structure RatioVal where
  num : Int
  den : Int
deriving DecidableEq, Repr

/-- `_ratio_to_float(r)`: `float(r.num) / float(r.den)`.  A zero
denominator raises `ZeroDivisionError` in Python (caught by the caller),
modelled as `none`. -/
def _ratio_to_float (r : RatioVal) : Option ℚ :=
  if r.den = 0 then none else some ((r.num : ℚ) / (r.den : ℚ))

/-- `_dms_to_degrees(values)`: a 2-element sequence is degrees/minutes
with seconds `0.0`; otherwise the first three elements are used
(an `IndexError` on a 0- or 1-element sequence propagates to the caller,
which converts it to absence: modelled as `none`). -/
def _dms_to_degrees (values : List RatioVal) : Option ℚ :=
  match values with
  | [p0, p1] => do
    let d ← _ratio_to_float p0
    let m ← _ratio_to_float p1
    some (d + m / 60 + 0 / 3600)
  | p0 :: p1 :: p2 :: _ => do
    let d ← _ratio_to_float p0
    let m ← _ratio_to_float p1
    let s ← _ratio_to_float p2
    some (d + m / 60 + s / 3600)
  | _ => none

/-! ## GPS coordinate extraction (`PhotoMetadataExtractor.get_gps_coordinates`) -/

/-- The four EXIF tags the GPS decoder reads out of the tag dict:
`GPS GPSLatitude`, `GPS GPSLatitudeRef`, `GPS GPSLongitude`,
`GPS GPSLongitudeRef`.  A `none` field is a key missing from the dict
(`tags.get` returning `None`); present `exifread` tag objects are always
truthy, so the `all [...]` check in the source is exactly presence of all
four.  A Ref tag's `.values` is the tag's string. -/
structure GpsTagSet where
  gpsLatitude : Option (List RatioVal)
  gpsLatitudeRef : Option String
  gpsLongitude : Option (List RatioVal)
  gpsLongitudeRef : Option String
deriving DecidableEq

/-- `PhotoMetadataExtractor.get_gps_coordinates`: decodes both DMS
sequences, takes the first character of each hemisphere-reference string
(`values[0]`, an `IndexError` on an empty string is caught), upper-cases
it, negates on `S`/`W`, and range-checks the result.  Every exception in
the `try` block is caught and converted to `None`: modelled by the
`Option` monad. -/
def get_gps_coordinates (tags : GpsTagSet) : Option (ℚ × ℚ) :=
  match tags.gpsLatitude, tags.gpsLatitudeRef, tags.gpsLongitude, tags.gpsLongitudeRef with
  | some latV, some latRefV, some lonV, some lonRefV =>
    (do
      let lat0 ← _dms_to_degrees latV
      let lon0 ← _dms_to_degrees lonV
      let latRefC ← latRefV.data.head?
      let lonRefC ← lonRefV.data.head?
      let lat := if latRefC.toUpper = 'S' then -lat0 else lat0
      let lon := if lonRefC.toUpper = 'W' then -lon0 else lon0
      if -90 ≤ lat ∧ lat ≤ 90 ∧ -180 ≤ lon ∧ lon ≤ 180 then some (lat, lon) else none)
  | _, _, _, _ => none

/-- GPS tag set of the spec's worked example: latitude (40, 26, 46) ref N,
longitude (79, 58, 56) ref W. -/
def exampleGpsTags : GpsTagSet :=
  { gpsLatitude := some [⟨40, 1⟩, ⟨26, 1⟩, ⟨46, 1⟩]
    gpsLatitudeRef := some "N"
    gpsLongitude := some [⟨79, 1⟩, ⟨58, 1⟩, ⟨56, 1⟩]
    gpsLongitudeRef := some "W" }

section GpsTheorems

attribute [local semireducible] Rat.add Rat.sub Rat.mul Rat.inv

/-- C1: for every GPS tag set whose four fields are present and parseable,
the decoded coordinate's magnitude is degrees + minutes/60 + seconds/3600
(seconds 0 for the 2-element form, each rational evaluated as
numerator/denominator), negated exactly when the hemisphere reference is
`S` (latitude) or `W` (longitude), case-insensitively; in particular
latitude (40, 26, 46) ref N and longitude (79, 58, 56) ref W decode to
approximately (40.44611, -79.98222). -/
theorem gps_decode_dms_sign :
    (∀ p0 p1 d m, _ratio_to_float p0 = some d → _ratio_to_float p1 = some m →
      _dms_to_degrees [p0, p1] = some (d + m / 60)) ∧
    (∀ p0 p1 p2 rest d m s, _ratio_to_float p0 = some d → _ratio_to_float p1 = some m →
      _ratio_to_float p2 = some s →
      _dms_to_degrees (p0 :: p1 :: p2 :: rest) = some (d + m / 60 + s / 3600)) ∧
    (∀ tags latV latR lonV lonR dlat dlon clat clon lat lon,
      tags.gpsLatitude = some latV → tags.gpsLatitudeRef = some latR →
      tags.gpsLongitude = some lonV → tags.gpsLongitudeRef = some lonR →
      _dms_to_degrees latV = some dlat → _dms_to_degrees lonV = some dlon →
      latR.data.head? = some clat → lonR.data.head? = some clon →
      get_gps_coordinates tags = some (lat, lon) →
      lat = (if clat.toUpper = 'S' then -dlat else dlat) ∧
      lon = (if clon.toUpper = 'W' then -dlon else dlon)) ∧
    (∀ lat lon, get_gps_coordinates exampleGpsTags = some (lat, lon) →
      |lat - 4044611 / 100000| < 1 / 100000 ∧ |lon + 7998222 / 100000| < 1 / 100000) := by
  refine ⟨?_, ?_, ?_, ?_⟩
  · intro p0 p1 d m hd hm
    simp [_dms_to_degrees, hd, hm]
  · intro p0 p1 p2 rest d m s hd hm hs
    match rest with
    | [] => simp [_dms_to_degrees, hd, hm, hs]
    | _ :: _ => simp [_dms_to_degrees, hd, hm, hs]
  · intro tags latV latR lonV lonR dlat dlon clat clon lat lon h1 h2 h3 h4 hdlat hdlon hclat hclon hres
    unfold get_gps_coordinates at hres
    rw [h1, h2, h3, h4] at hres
    simp only [hdlat, hdlon, hclat, hclon, Option.bind_eq_bind, Option.some_bind] at hres
    generalize hA : (if clat.toUpper = 'S' then -dlat else dlat) = A at hres ⊢
    generalize hB : (if clon.toUpper = 'W' then -dlon else dlon) = B at hres ⊢
    split at hres
    · have h := Option.some.inj hres
      exact ⟨(congrArg Prod.fst h).symm, (congrArg Prod.snd h).symm⟩
    · exact absurd hres (by simp)
  · intro lat lon hres
    have hval : get_gps_coordinates exampleGpsTags =
        some (72803 / 1800, -(17996 / 225)) := by rfl
    rw [hval] at hres
    have h := Option.some.inj hres
    injection h with h1 h2
    subst h1
    subst h2
    constructor <;> decide

/-- Witness for C1: the general sign/magnitude property applied at the
spec's worked example. -/
theorem gps_decode_dms_sign_witness :
    (72803 / 1800 : ℚ) = (if ('N'.toUpper = 'S') then -(72803 / 1800 : ℚ) else 72803 / 1800) ∧
    (-(17996 / 225) : ℚ) = (if ('W'.toUpper = 'W') then -(17996 / 225 : ℚ) else (17996 / 225)) := by
  exact gps_decode_dms_sign.2.2.1 exampleGpsTags
    [⟨40, 1⟩, ⟨26, 1⟩, ⟨46, 1⟩] "N" [⟨79, 1⟩, ⟨58, 1⟩, ⟨56, 1⟩] "W"
    (72803 / 1800) (17996 / 225) 'N' 'W' (72803 / 1800) (-(17996 / 225))
    rfl rfl rfl rfl (by rfl) (by rfl) rfl rfl (by rfl)

/-- A GPS tag set with 2-element DMS values decoding to (0, 0). -/
def zeroGpsTags : GpsTagSet :=
  { gpsLatitude := some [⟨0, 1⟩, ⟨0, 1⟩]
    gpsLatitudeRef := some "N"
    gpsLongitude := some [⟨0, 1⟩, ⟨0, 1⟩]
    gpsLongitudeRef := some "E" }

/-- C2: the coordinate decoder never raises (it is a total function into
`Option`): a missing field, a failing parse step, or an out-of-range
result all yield `none`, and every returned coordinate has latitude in
[-90, 90] and longitude in [-180, 180]. -/
theorem gps_decode_absent_and_range :
    (∀ tags : GpsTagSet,
      (tags.gpsLatitude = none ∨ tags.gpsLatitudeRef = none ∨
       tags.gpsLongitude = none ∨ tags.gpsLongitudeRef = none) →
      get_gps_coordinates tags = none) ∧
    (∀ tags latV latR lonV lonR,
      tags.gpsLatitude = some latV → tags.gpsLatitudeRef = some latR →
      tags.gpsLongitude = some lonV → tags.gpsLongitudeRef = some lonR →
      (_dms_to_degrees latV = none ∨ _dms_to_degrees lonV = none ∨
       latR.data.head? = none ∨ lonR.data.head? = none) →
      get_gps_coordinates tags = none) ∧
    (∀ tags latV latR lonV lonR dlat dlon clat clon,
      tags.gpsLatitude = some latV → tags.gpsLatitudeRef = some latR →
      tags.gpsLongitude = some lonV → tags.gpsLongitudeRef = some lonR →
      _dms_to_degrees latV = some dlat → _dms_to_degrees lonV = some dlon →
      latR.data.head? = some clat → lonR.data.head? = some clon →
      ¬(-90 ≤ (if clat.toUpper = 'S' then -dlat else dlat) ∧
        (if clat.toUpper = 'S' then -dlat else dlat) ≤ 90 ∧
        -180 ≤ (if clon.toUpper = 'W' then -dlon else dlon) ∧
        (if clon.toUpper = 'W' then -dlon else dlon) ≤ 180) →
      get_gps_coordinates tags = none) ∧
    (∀ tags lat lon, get_gps_coordinates tags = some (lat, lon) →
      -90 ≤ lat ∧ lat ≤ 90 ∧ -180 ≤ lon ∧ lon ≤ 180) := by
  refine ⟨?_, ?_, ?_, ?_⟩
  · intro tags h
    obtain ⟨a, b, c, d⟩ := tags
    cases a <;> cases b <;> cases c <;> cases d <;> first | rfl | simp at h
  · intro tags latV latR lonV lonR h1 h2 h3 h4 h
    obtain ⟨a, b, c, d⟩ := tags
    simp only at h1 h2 h3 h4
    subst h1; subst h2; subst h3; subst h4
    simp only [get_gps_coordinates]
    cases hlat : _dms_to_degrees latV with
    | none => simp
    | some dlat =>
      cases hlon : _dms_to_degrees lonV with
      | none => simp [hlon]
      | some dlon =>
        cases hcl : latR.data.head? with
        | none => simp [hlon, hcl]
        | some clat =>
          cases hcl2 : lonR.data.head? with
          | none => simp [hlon, hcl, hcl2]
          | some clon => rcases h with h | h | h | h <;> simp_all
  · intro tags latV latR lonV lonR dlat dlon clat clon h1 h2 h3 h4 hdlat hdlon hclat hclon hnot
    obtain ⟨a, b, c, d⟩ := tags
    simp only at h1 h2 h3 h4
    subst h1; subst h2; subst h3; subst h4
    simp only [get_gps_coordinates, hdlat, hdlon, hclat, hclon,
      Option.bind_eq_bind, Option.some_bind]
    exact if_neg hnot
  · intro tags lat lon hres
    obtain ⟨a, b, c, d⟩ := tags
    cases a <;> cases b <;> cases c <;> cases d <;>
      simp only [get_gps_coordinates, reduceCtorEq] at hres
    case some.some.some.some latV latR lonV lonR =>
      simp only [Option.bind_eq_bind, Option.bind_eq_some] at hres
      obtain ⟨dlat, hdlat, dlon, hdlon, clat, hclat, clon, hclon, hfin⟩ := hres
      generalize (if clat.toUpper = 'S' then -dlat else dlat) = A at hfin
      generalize (if clon.toUpper = 'W' then -dlon else dlon) = B at hfin
      split at hfin
      case isTrue hP =>
        have h := Option.some.inj hfin
        injection h with hA hB
        subst hA; subst hB
        exact hP
      case isFalse => exact absurd hfin (by simp)

/-- Witness for C2: every coordinate the decoder returns is in range,
checked at a concrete tag set decoding to (0, 0). -/
theorem gps_decode_absent_and_range_witness :
    get_gps_coordinates zeroGpsTags = some (0, 0) ∧
    (-90 : ℚ) ≤ 0 ∧ (0 : ℚ) ≤ 90 ∧ (-180 : ℚ) ≤ 0 ∧ (0 : ℚ) ≤ 180 := by
  have h : get_gps_coordinates zeroGpsTags = some (0, 0) := by rfl
  exact ⟨h, gps_decode_absent_and_range.2.2.2 zeroGpsTags 0 0 h⟩

/-- C10: for a successfully parsed GPS tag set, any hemisphere reference
other than `S` (after upper-casing) leaves the latitude non-negated and
any reference other than `W` leaves the longitude non-negated:
unrecognized hemisphere letters decode to the positive hemisphere rather
than to absence. -/
theorem gps_unrecognized_ref_positive
    (tags : GpsTagSet) (latV lonV : List RatioVal) (latR lonR : String)
    (dlat dlon : ℚ) (clat clon : Char)
    (h1 : tags.gpsLatitude = some latV) (h2 : tags.gpsLatitudeRef = some latR)
    (h3 : tags.gpsLongitude = some lonV) (h4 : tags.gpsLongitudeRef = some lonR)
    (hdlat : _dms_to_degrees latV = some dlat) (hdlon : _dms_to_degrees lonV = some dlon)
    (hclat : latR.data.head? = some clat) (hclon : lonR.data.head? = some clon)
    (hS : clat.toUpper ≠ 'S') (hW : clon.toUpper ≠ 'W')
    (hrange : -90 ≤ dlat ∧ dlat ≤ 90 ∧ -180 ≤ dlon ∧ dlon ≤ 180) :
    get_gps_coordinates tags = some (dlat, dlon) := by
  unfold get_gps_coordinates
  rw [h1, h2, h3, h4]
  simp only [hdlat, hdlon, hclat, hclon, Option.bind_eq_bind, Option.some_bind,
    if_neg hS, if_neg hW]
  exact if_pos hrange

/-- Witness for C10: hemisphere references `Q` and `X` are treated as the
positive hemisphere. -/
theorem gps_unrecognized_ref_positive_witness :
    get_gps_coordinates
      { gpsLatitude := some [⟨10, 1⟩, ⟨0, 1⟩, ⟨0, 1⟩]
        gpsLatitudeRef := some "Q"
        gpsLongitude := some [⟨20, 1⟩, ⟨0, 1⟩, ⟨0, 1⟩]
        gpsLongitudeRef := some "X" } = some (10, 20) := by
  exact gps_unrecognized_ref_positive _
    [⟨10, 1⟩, ⟨0, 1⟩, ⟨0, 1⟩] [⟨20, 1⟩, ⟨0, 1⟩, ⟨0, 1⟩] "Q" "X"
    10 20 'Q' 'X' rfl rfl rfl rfl (by rfl) (by rfl) rfl rfl
    (by decide) (by decide) (by norm_num)

end GpsTheorems

/-! ## JSON values and the reverse-geocoding resolver (`_reverse_cached`) -/

/-- A JSON value as far as the application observes it: `null`, a string,
or an object (dict).  Other JSON shapes (numbers, arrays) never occur in
the fields the normalizer reads and are not modelled. -/
inductive JVal where
  | null
  | str (s : String)
  | obj (fields : List (String × JVal))

/-- Python truthiness of a JSON value: `None` and empty strings/dicts are
falsy. -/
def truthy : JVal → Bool
  | .null => false
  | .str s => !s.isEmpty
  | .obj l => !l.isEmpty

/-- `d[k]` lookup for a JSON object: first binding of the key wins. -/
def jget : List (String × JVal) → String → Option JVal
  | [], _ => none
  | (k, v) :: rest, key => if k = key then some v else jget rest key

/-- What one HTTP attempt of the resolver observes:
either `requests.get` itself raises `requests.RequestException`
(timeout, connection error), or an HTTP reply arrives with a status code
and, for the body, the outcome of `r.json()` — `none` meaning the body
is not valid JSON, in which case `r.json()` raises
`requests.exceptions.JSONDecodeError`, a `RequestException` subclass. -/
inductive ProviderResponse where
  | reply (statusCode : Nat) (body : Option JVal)
  | fault

/-- Observable outcome of one execution of the `_reverse_cached` body:
the returned value (`none` for Python `None`), the number of HTTP
attempts issued, and the sequence of back-off sleeps in seconds. -/
structure FetchTrace where
  result : Option JVal
  attempts : Nat
  sleeps : List ℚ

/-- The `for attempt in range(3)` loop of `_reverse_cached`, started at
iteration `attempt` with `fuel` iterations left.  A 200 reply returns the
parsed body (a `JSONDecodeError` is caught by the
`except requests.RequestException` handler, which sleeps
`0.5 * (attempt + 1)` and continues); a 429 reply sleeps
`1.5 * (attempt + 1)` and continues; any other status returns `None`
immediately; a network fault sleeps `0.5 * (attempt + 1)` and continues;
a completed loop returns `None`. -/
def runFrom (beh : Nat → ProviderResponse) : Nat → Nat → FetchTrace
  | _, 0 => ⟨none, 0, []⟩
  | attempt, fuel + 1 =>
    match beh attempt with
    | .fault =>
      let t := runFrom beh (attempt + 1) fuel
      ⟨t.result, t.attempts + 1, (1 / 2 * (attempt + 1) : ℚ) :: t.sleeps⟩
    | .reply code body =>
      if code = 200 then
        match body with
        | some j => ⟨some j, 1, []⟩
        | none =>
          let t := runFrom beh (attempt + 1) fuel
          ⟨t.result, t.attempts + 1, (1 / 2 * (attempt + 1) : ℚ) :: t.sleeps⟩
      else if code = 429 then
        let t := runFrom beh (attempt + 1) fuel
        ⟨t.result, t.attempts + 1, (3 / 2 * (attempt + 1) : ℚ) :: t.sleeps⟩
      else ⟨none, 1, []⟩

/-- One execution of the body of `_reverse_cached` (the low-level
resolver, independent of the `lru_cache` decorator): the retry loop with
3 attempts total. -/
def _reverse_cached_body (beh : Nat → ProviderResponse) : FetchTrace :=
  runFrom beh 0 3

/-- A provider behaviour on which every attempt must be retried:
a network-level fault, an HTTP 429, or an HTTP 200 whose body fails to
parse as JSON. -/
def retryable : ProviderResponse → Bool
  | .fault => true
  | .reply code body =>
    if code = 429 then true
    else if code = 200 then body.isNone
    else false

/-- Helper: the loop performs at most `fuel` HTTP attempts. -/
theorem runFrom_attempts_le (beh : Nat → ProviderResponse) :
    ∀ fuel attempt, (runFrom beh attempt fuel).attempts ≤ fuel := by
  intro fuel
  induction fuel with
  | zero => intro attempt; simp [runFrom]
  | succ f ih =>
    intro attempt
    simp only [runFrom]
    cases hb : beh attempt with
    | fault => exact Nat.succ_le_succ (ih (attempt + 1))
    | reply code body =>
      by_cases h200 : code = 200
      · simp only [h200, if_pos rfl]
        cases body with
        | some j => simp
        | none => exact Nat.succ_le_succ (ih (attempt + 1))
      · by_cases h429 : code = 429
        · simp only [if_neg h200, h429, if_pos rfl]
          exact Nat.succ_le_succ (ih (attempt + 1))
        · simp [if_neg h200, if_neg h429]

/-- Helper: any value the loop returns is the parsed body of some HTTP 200
reply it received. -/
theorem runFrom_result_parsed (beh : Nat → ProviderResponse) :
    ∀ fuel attempt, (runFrom beh attempt fuel).result = none ∨
      ∃ j i, attempt ≤ i ∧ i < attempt + fuel ∧ beh i = .reply 200 (some j) ∧
        (runFrom beh attempt fuel).result = some j := by
  intro fuel
  induction fuel with
  | zero => intro attempt; left; simp [runFrom]
  | succ f ih =>
    intro attempt
    simp only [runFrom]
    cases hb : beh attempt with
    | fault =>
      rcases ih (attempt + 1) with h | ⟨j, i, hi1, hi2, hbi, hres⟩
      · left; exact h
      · right; exact ⟨j, i, by omega, by omega, hbi, hres⟩
    | reply code body =>
      by_cases h200 : code = 200
      · subst h200
        cases body with
        | some j => right; exact ⟨j, attempt, Nat.le_refl _, by omega, hb, rfl⟩
        | none =>
          simp only [if_pos rfl]
          rcases ih (attempt + 1) with h | ⟨j, i, hi1, hi2, hbi, hres⟩
          · left; exact h
          · right; exact ⟨j, i, by omega, by omega, hbi, hres⟩
      · by_cases h429 : code = 429
        · simp only [if_neg h200, h429, if_pos rfl]
          rcases ih (attempt + 1) with h | ⟨j, i, hi1, hi2, hbi, hres⟩
          · left; exact h
          · right; exact ⟨j, i, by omega, by omega, hbi, hres⟩
        · left; simp [if_neg h200, if_neg h429]

/-- Helper: if every response in the window must be retried, the loop
exhausts its fuel, returns `None` and uses every attempt. -/
theorem runFrom_all_retryable (beh : Nat → ProviderResponse) :
    ∀ fuel attempt, (∀ i, attempt ≤ i → i < attempt + fuel → retryable (beh i) = true) →
      (runFrom beh attempt fuel).result = none ∧
      (runFrom beh attempt fuel).attempts = fuel := by
  intro fuel
  induction fuel with
  | zero => intro attempt _; simp [runFrom]
  | succ f ih =>
    intro attempt hall
    have hrec := ih (attempt + 1) (fun i h1 h2 => hall i (by omega) (by omega))
    have hcur : retryable (beh attempt) = true := hall attempt (Nat.le_refl _) (by omega)
    simp only [runFrom]
    cases hb : beh attempt with
    | fault => exact ⟨hrec.1, by simpa using hrec.2⟩
    | reply code body =>
      rw [hb] at hcur
      by_cases h200 : code = 200
      · subst h200
        cases body with
        | some j => simp [retryable] at hcur
        | none => simpa using hrec
      · by_cases h429 : code = 429
        · simp only [if_neg h200, h429, if_pos rfl]
          simpa using hrec
        · simp [retryable, if_neg h200, if_neg h429] at hcur

section ResolverTheorems

/-- C3: the resolver issues at most 3 HTTP attempts in total; a 429 reply
on loop iteration `attempt` (attempt number `attempt + 1`) sleeps
`1.5 * (attempt + 1)` seconds and retries; a network-level fault sleeps
`0.5 * (attempt + 1)` seconds and retries; a 200 reply returns the parsed
body at once with no further attempts and no sleep. -/
theorem resolver_retry_policy :
    (∀ beh, (_reverse_cached_body beh).attempts ≤ 3) ∧
    (∀ beh attempt fuel body, beh attempt = .reply 429 body →
      runFrom beh attempt (fuel + 1) =
        ⟨(runFrom beh (attempt + 1) fuel).result,
         (runFrom beh (attempt + 1) fuel).attempts + 1,
         (3 / 2 * (attempt + 1) : ℚ) :: (runFrom beh (attempt + 1) fuel).sleeps⟩) ∧
    (∀ beh attempt fuel, beh attempt = .fault →
      runFrom beh attempt (fuel + 1) =
        ⟨(runFrom beh (attempt + 1) fuel).result,
         (runFrom beh (attempt + 1) fuel).attempts + 1,
         (1 / 2 * (attempt + 1) : ℚ) :: (runFrom beh (attempt + 1) fuel).sleeps⟩) ∧
    (∀ beh attempt fuel j, beh attempt = .reply 200 (some j) →
      runFrom beh attempt (fuel + 1) = ⟨some j, 1, []⟩) := by
  refine ⟨fun beh => runFrom_attempts_le beh 3 0, ?_, ?_, ?_⟩
  · intro beh attempt fuel body hb
    simp [runFrom, hb]
  · intro beh attempt fuel hb
    simp [runFrom, hb]
  · intro beh attempt fuel j hb
    simp [runFrom, hb]

/-- A provider that replies HTTP 429 with an unparseable body on every
attempt. -/
def beh429 : Nat → ProviderResponse := fun _ => .reply 429 none

/-- Witness for C3: the 429 branch applied on the first loop iteration of
a full 3-attempt run. -/
theorem resolver_retry_policy_witness :
    runFrom beh429 0 (2 + 1) =
      ⟨(runFrom beh429 (0 + 1) 2).result,
       (runFrom beh429 (0 + 1) 2).attempts + 1,
       (3 / 2 * (0 + 1) : ℚ) :: (runFrom beh429 (0 + 1) 2).sleeps⟩ :=
  resolver_retry_policy.2.1 beh429 0 2 none rfl

/-- C4: a reply whose status is neither 200 nor 429 makes the resolver
return `None` immediately, with that single attempt and no sleep,
on whichever loop iteration it occurs. -/
theorem resolver_terminal_non200 :
    (∀ beh attempt fuel code body, code ≠ 200 → code ≠ 429 →
      beh attempt = .reply code body →
      runFrom beh attempt (fuel + 1) = ⟨none, 1, []⟩) ∧
    (∀ beh code body, code ≠ 200 → code ≠ 429 → beh 0 = .reply code body →
      _reverse_cached_body beh = ⟨none, 1, []⟩) := by
  constructor
  · intro beh attempt fuel code body h200 h429 hb
    simp [runFrom, hb, if_neg h200, if_neg h429]
  · intro beh code body h200 h429 hb
    show runFrom beh 0 3 = ⟨none, 1, []⟩
    simp [runFrom, hb, if_neg h200, if_neg h429]

/-- A provider that replies HTTP 500 on every attempt. -/
def beh500 : Nat → ProviderResponse := fun _ => .reply 500 none

/-- Witness for C4: an HTTP 500 on the first attempt ends the whole run
after exactly one attempt. -/
theorem resolver_terminal_non200_witness :
    _reverse_cached_body beh500 = ⟨none, 1, []⟩ :=
  resolver_terminal_non200.2 beh500 500 none (by decide) (by decide) rfl

/-- C5: the resolver never raises past its boundary: every run returns
either the parsed body of a 200 reply it received or `None`, and a run in
which every attempt must be retried (faults, 429s, or 200s whose body is
not valid JSON) exhausts all 3 attempts and returns `None`. -/
theorem resolver_no_raise :
    (∀ beh, (_reverse_cached_body beh).result = none ∨
      ∃ j i, i < 3 ∧ beh i = .reply 200 (some j) ∧
        (_reverse_cached_body beh).result = some j) ∧
    (∀ beh, (∀ i, i < 3 → retryable (beh i) = true) →
      (_reverse_cached_body beh).result = none ∧
      (_reverse_cached_body beh).attempts = 3) := by
  constructor
  · intro beh
    rcases runFrom_result_parsed beh 3 0 with h | ⟨j, i, _, hi2, hbi, hres⟩
    · left; exact h
    · right; exact ⟨j, i, by omega, hbi, hres⟩
  · intro beh hall
    exact runFrom_all_retryable beh 3 0 (fun i _ h2 => hall i (by omega))

/-- A provider that always replies HTTP 200 with a body that is not valid
JSON. -/
def behBadJson : Nat → ProviderResponse := fun _ => .reply 200 none

/-- Witness for C5: a 200 reply with an unparseable body on all attempts
exhausts the retry budget and yields `None` (rather than an exception). -/
theorem resolver_no_raise_witness :
    (_reverse_cached_body behBadJson).result = none ∧
    (_reverse_cached_body behBadJson).attempts = 3 :=
  resolver_no_raise.2 behBadJson (fun _ _ => rfl)

end ResolverTheorems

/-! ## Address normalization (`reverse_geocode`, lines 75-96) -/

/-- `Except`-valued projection to a dict: Python raises `AttributeError`
when `.get` is called on a non-dict value. -/
def asObj : JVal → Except String (List (String × JVal))
  | .obj l => .ok l
  | _ => .error "AttributeError"

/-- Python `a or b` on JSON values. -/
def pyOr (a b : JVal) : JVal := if truthy a then a else b

/-- Python `d.get(k, default)`. -/
def pyGetD (d : List (String × JVal)) (k : String) (dflt : JVal) : JVal :=
  (jget d k).getD dflt

/-- Python `d.get(k)` (default `None`). -/
def pyGet (d : List (String × JVal)) (k : String) : JVal :=
  (jget d k).getD .null

/-- Python `str.upper()` on the ASCII range, character by character. -/
def upperString (s : String) : String := String.mk (s.data.map Char.toUpper)

/-- Python `.upper()`: raises `AttributeError` on a non-string. -/
def pyUpper : JVal → Except String JVal
  | .str s => .ok (.str (upperString s))
  | _ => .error "AttributeError"

/-- The normalized address dict built by `reverse_geocode` (its `raw` key
holds the untouched provider payload). -/
structure AddressResult where
  country : JVal
  country_code : JVal
  town : JVal
  county : JVal
  state : JVal
  suburb : JVal
  postcode : JVal
  road : JVal
  house_number : JVal
  display_name : JVal
  raw : JVal

/-- The pure part of `reverse_geocode` applied to the value produced by
the resolver (`data`): `if not data: return None`, then normalization of
`data["address"]` into the result dict.  `.error` marks a Python
exception escaping `reverse_geocode` (possible only on payloads whose
fields have unexpected shapes); `.ok none` is Python `None`. -/
def reverse_geocode_norm (data : JVal) : Except String (Option AddressResult) :=
  if ¬ truthy data then .ok none
  else
    match asObj data with
    | .error e => .error e
    | .ok fields =>
      match asObj (pyOr (pyGetD fields "address" (.obj [])) (.obj [])) with
      | .error e => .error e
      | .ok address =>
        match pyUpper (pyOr (pyGetD address "country_code" (.str "")) (.str "")) with
        | .error e => .error e
        | .ok cc =>
          .ok (some
            { country := pyGetD address "country" (.str "")
              country_code := cc
              town := pyOr (pyOr (pyOr (pyGet address "town") (pyGet address "city"))
                (pyGet address "village")) (.str "")
              county := pyGetD address "county" (.str "")
              state := pyOr (pyOr (pyGet address "state") (pyGet address "province"))
                (.str "")
              suburb := pyOr (pyOr (pyGet address "suburb")
                (pyGet address "neighbourhood")) (.str "")
              postcode := pyGetD address "postcode" (.str "")
              road := pyGetD address "road" (.str "")
              house_number := pyGetD address "house_number" (.str "")
              display_name := pyGetD fields "display_name" (.str "")
              raw := data })

/-! ## The two cache tiers (`lru_cache` on `_reverse_cached`,
`st.cache_data(ttl=86400)` on `reverse_geocode_cached`) -/

/-- Python `round(x, 4)`: round to 4 decimal places, ties to even. -/
def pyRound4 (x : ℚ) : ℚ :=
  let y := x * 10000
  let f : ℤ := y.floor
  let r : ℤ :=
    if y - (f : ℚ) < 1 / 2 then f
    else if y - (f : ℚ) > 1 / 2 then f + 1
    else if f % 2 = 0 then f else f + 1
  (r : ℚ) / 10000

/-- The `lru_cache(maxsize=1024)` store of `_reverse_cached`: most
recently used first. -/
def LruStore := List ((ℚ × ℚ) × Option JVal)

/-- Cache hit: return the stored value and move the entry to the front. -/
def lruGet (c : LruStore) (k : ℚ × ℚ) : Option (Option JVal × LruStore) :=
  match List.lookup k c with
  | some v => some (v, (k, v) :: List.filter (fun e => !(e.1 = k : Bool)) c)
  | none => none

/-- Cache insert with the 1024-entry bound (oldest beyond the bound are
evicted). -/
def lruInsert (c : LruStore) (k : ℚ × ℚ) (v : Option JVal) : LruStore :=
  List.take 1024 ((k, v) :: c)

/-- The whole-app cache state: the inner `lru_cache` tier keyed by the
rounded coordinate, the outer `st.cache_data` tier keyed by the raw
call arguments together with each entry's insertion time (seconds), and
the count of fetch executions (network sessions) performed so far. -/
structure GeoState where
  lru : LruStore
  outer : List ((ℚ × ℚ) × (Option AddressResult × ℚ))
  networkCalls : Nat

/-- The empty initial state of a fresh process. -/
def emptyGeoState : GeoState := ⟨[], [], 0⟩

/-- An environment: `world c` is the provider behaviour seen by the
`c`-th fetch execution (per attempt index). -/
def GeoEnv := Nat → Nat → ProviderResponse

/-- `_reverse_cached` as called: the `lru_cache` wrapper around the retry
loop.  On a hit no HTTP traffic happens; on a miss the body runs once and
its result (success or `None`) is stored under the rounded key. -/
def _reverse_cached (env : GeoEnv) (st : GeoState) (key : ℚ × ℚ) :
    Option JVal × GeoState :=
  match lruGet st.lru key with
  | some (v, c) => (v, { st with lru := c })
  | none =>
    let tr := _reverse_cached_body (env st.networkCalls)
    (tr.result,
     { st with lru := lruInsert st.lru key tr.result, networkCalls := st.networkCalls + 1 })

/-- `reverse_geocode(lat, lon)`: round both coordinates to 4 decimal
places, consult `_reverse_cached` on the rounded key, and normalize the
payload. -/
def reverse_geocode (env : GeoEnv) (st : GeoState) (lat lon : ℚ) :
    Except String (Option AddressResult) × GeoState :=
  (reverse_geocode_norm
     (((_reverse_cached env st (pyRound4 lat, pyRound4 lon)).1).getD .null),
   (_reverse_cached env st (pyRound4 lat, pyRound4 lon)).2)

/-- `reverse_geocode_cached(lat, lon)` at wall-clock time `now`: the
`st.cache_data(ttl=86400)` tier, keyed by the raw call arguments; an
entry is served while its age is below 24 hours; results (including
`None`) are cached, exceptions are not. -/
def outerGet (c : List ((ℚ × ℚ) × (Option AddressResult × ℚ))) (k : ℚ × ℚ)
    (now : ℚ) : Option (Option AddressResult) :=
  match List.lookup k c with
  | some (v, tIns) => if now - tIns < 86400 then some v else none
  | none => none

/-- The outer tier itself: serve from a live entry, otherwise run
`reverse_geocode` and cache its return value under the raw argument
pair. -/
def reverse_geocode_cached (env : GeoEnv) (st : GeoState) (now lat lon : ℚ) :
    Except String (Option AddressResult) × GeoState :=
  match outerGet st.outer (lat, lon) now with
  | some v => (.ok v, st)
  | none =>
    match (reverse_geocode env st lat lon).1 with
    | .ok v =>
      (.ok v,
       { (reverse_geocode env st lat lon).2 with
         outer := ((lat, lon), (v, now)) :: (reverse_geocode env st lat lon).2.outer })
    | .error e => (.error e, (reverse_geocode env st lat lon).2)

/-- Helper: a hit on a single-entry lru store. -/
theorem lruGet_single_self (k : ℚ × ℚ) (v : Option JVal) :
    lruGet [(k, v)] k = some (v, [(k, v)]) := by
  simp [lruGet, List.lookup, List.filter]

/-- Helper: when the rounded key is already in the inner cache, a
resolution performs no fetch execution, whatever the outer tier holds. -/
theorem second_run_calls (env : GeoEnv) (st : GeoState) (now lat lon : ℚ)
    (h : ∃ vc, lruGet st.lru (pyRound4 lat, pyRound4 lon) = some vc) :
    ((reverse_geocode_cached env st now lat lon).2).networkCalls = st.networkCalls := by
  obtain ⟨⟨v, c⟩, h⟩ := h
  unfold reverse_geocode_cached
  cases ho : outerGet st.outer (lat, lon) now with
  | some w => rfl
  | none =>
    simp only [reverse_geocode, _reverse_cached, h]
    cases hr : reverse_geocode_norm (v.getD .null) <;> simp [hr]

/-- Helper: a resolution from the empty state performs exactly one fetch
execution and stores its raw result in the inner tier under the rounded
coordinate key. -/
theorem first_run_state (env : GeoEnv) (t lat lon : ℚ) :
    ((reverse_geocode_cached env emptyGeoState t lat lon).2).networkCalls = 1 ∧
    ((reverse_geocode_cached env emptyGeoState t lat lon).2).lru =
      [((pyRound4 lat, pyRound4 lon), (_reverse_cached_body (env 0)).result)] := by
  unfold reverse_geocode_cached
  cases ho : outerGet ((emptyGeoState).outer) (lat, lon) t with
  | some w => simp [outerGet, emptyGeoState, List.lookup] at ho
  | none =>
    simp only [reverse_geocode, _reverse_cached, emptyGeoState, lruGet, List.lookup,
      lruInsert, List.take]
    cases hr : reverse_geocode_norm
        ((_reverse_cached_body (env 0)).result.getD .null) <;> simp [hr]

/-- A provider that always answers HTTP 200 with a small valid payload. -/
def envOk : GeoEnv :=
  fun _ _ => .reply 200 (some (.obj [("display_name", .str "X")]))

section CacheTheorems

attribute [local semireducible] Rat.add Rat.sub Rat.mul Rat.inv

/-- Counterexample to C6: the coordinates 0.00004 and 0.00006 (same
longitude 0) differ by 0.00002 < 0.00005 in each component, yet they
round to different 4-decimal cache keys, and resolving the two in turn
from a fresh process performs two network calls, not at most one. -/
theorem cache_rounded_key_cex :
    |(1 / 25000 : ℚ) - 3 / 50000| < 5 / 100000 ∧
    pyRound4 (1 / 25000) ≠ pyRound4 (3 / 50000) ∧
    ((reverse_geocode_cached envOk
        (reverse_geocode_cached envOk emptyGeoState 0 (1 / 25000) 0).2
        0 (3 / 50000) 0).2).networkCalls = 2 := by
  refine ⟨by decide, by decide, by rfl⟩

/-- C6 (amended): `reverse_geocode` rounds the coordinate to 4 decimal
places before the inner-tier lookup and storage (the outer tier keys on
the raw coordinate); two coordinates whose components round to the same
4-decimal values produce the same inner cache key, and resolving the two
in turn from a fresh process performs at most one network call. -/
theorem cache_rounded_key_amended (env : GeoEnv) (t1 t2 lat1 lon1 lat2 lon2 : ℚ)
    (hlat : pyRound4 lat1 = pyRound4 lat2) (hlon : pyRound4 lon1 = pyRound4 lon2) :
    (pyRound4 lat1, pyRound4 lon1) = (pyRound4 lat2, pyRound4 lon2) ∧
    ((reverse_geocode_cached env emptyGeoState t1 lat1 lon1).2).lru =
      [((pyRound4 lat1, pyRound4 lon1), (_reverse_cached_body (env 0)).result)] ∧
    ((reverse_geocode_cached env
        (reverse_geocode_cached env emptyGeoState t1 lat1 lon1).2
        t2 lat2 lon2).2).networkCalls ≤ 1 := by
  have h1 := first_run_state env t1 lat1 lon1
  refine ⟨by rw [hlat, hlon], h1.2, ?_⟩
  have hget : lruGet ((reverse_geocode_cached env emptyGeoState t1 lat1 lon1).2).lru
      (pyRound4 lat2, pyRound4 lon2) =
      some ((_reverse_cached_body (env 0)).result,
        [((pyRound4 lat1, pyRound4 lon1), (_reverse_cached_body (env 0)).result)]) := by
    rw [h1.2, ← hlat, ← hlon]
    exact lruGet_single_self _ _
  have h2 := second_run_calls env _ t2 lat2 lon2 ⟨_, hget⟩
  rw [h2, h1.1]

/-- Witness for the amended C6: 0.0000333… and 0 round to the same key;
resolving both performs one network call in total. -/
theorem cache_rounded_key_amended_witness :
    (pyRound4 (1 / 30000), pyRound4 0) = (pyRound4 0, pyRound4 0) ∧
    ((reverse_geocode_cached envOk emptyGeoState 0 (1 / 30000) 0).2).lru =
      [((pyRound4 (1 / 30000), pyRound4 0), (_reverse_cached_body (envOk 0)).result)] ∧
    ((reverse_geocode_cached envOk
        (reverse_geocode_cached envOk emptyGeoState 0 (1 / 30000) 0).2
        0 0 0).2).networkCalls ≤ 1 :=
  cache_rounded_key_amended envOk 0 0 (1 / 30000) 0 0 0 (by decide) (by decide)

/-- C8: resolving the same coordinate pair twice from a fresh process,
the second time within 24 hours of the first, yields the identical result
and performs no second network call. -/
theorem cache_idempotent_24h (env : GeoEnv) (t1 t2 lat lon : ℚ)
    (hwin : t2 - t1 < 86400) :
    (reverse_geocode_cached env
        (reverse_geocode_cached env emptyGeoState t1 lat lon).2 t2 lat lon).1 =
      (reverse_geocode_cached env emptyGeoState t1 lat lon).1 ∧
    ((reverse_geocode_cached env
        (reverse_geocode_cached env emptyGeoState t1 lat lon).2 t2 lat lon).2).networkCalls =
      ((reverse_geocode_cached env emptyGeoState t1 lat lon).2).networkCalls := by
  have hrun1 : reverse_geocode_cached env emptyGeoState t1 lat lon =
      match reverse_geocode_norm ((_reverse_cached_body (env 0)).result.getD .null) with
      | .ok v =>
        (.ok v,
         ⟨[((pyRound4 lat, pyRound4 lon), (_reverse_cached_body (env 0)).result)],
          [((lat, lon), (v, t1))], 1⟩)
      | .error e =>
        (.error e,
         ⟨[((pyRound4 lat, pyRound4 lon), (_reverse_cached_body (env 0)).result)],
          [], 1⟩) := by
    unfold reverse_geocode_cached
    have hempty1 : outerGet ((emptyGeoState).outer) (lat, lon) t1 = none := rfl
    have hrg1 : reverse_geocode env emptyGeoState lat lon =
        (reverse_geocode_norm ((_reverse_cached_body (env 0)).result.getD .null),
         ⟨[((pyRound4 lat, pyRound4 lon), (_reverse_cached_body (env 0)).result)],
          [], 1⟩) := by
      simp [reverse_geocode, _reverse_cached, lruGet, List.lookup, emptyGeoState,
        lruInsert]
    rw [hempty1, hrg1]
  cases hr : reverse_geocode_norm ((_reverse_cached_body (env 0)).result.getD .null) with
  | ok v =>
    rw [hrun1, hr]
    have hhit : outerGet [((lat, lon), (v, t1))] (lat, lon) t2 = some v := by
      simp [outerGet, List.lookup, hwin]
    simp only [reverse_geocode_cached, hhit]
    trivial
  | error e =>
    rw [hrun1, hr]
    have hempty : outerGet ([] : List ((ℚ × ℚ) × (Option AddressResult × ℚ)))
        (lat, lon) t2 = none := rfl
    have hrg : reverse_geocode env
        ⟨[((pyRound4 lat, pyRound4 lon), (_reverse_cached_body (env 0)).result)], [], 1⟩
        lat lon =
        (reverse_geocode_norm ((_reverse_cached_body (env 0)).result.getD .null),
         ⟨[((pyRound4 lat, pyRound4 lon), (_reverse_cached_body (env 0)).result)],
          [], 1⟩) := by
      simp [reverse_geocode, _reverse_cached, lruGet_single_self]
    simp only [reverse_geocode_cached, hempty, hrg, hr]
    trivial

/-- Witness for C8: resolving (0, 0) at time 0 and again at time 100
returns the same result with a single network call. -/
theorem cache_idempotent_24h_witness :
    (reverse_geocode_cached envOk
        (reverse_geocode_cached envOk emptyGeoState 0 0 0).2 100 0 0).1 =
      (reverse_geocode_cached envOk emptyGeoState 0 0 0).1 ∧
    ((reverse_geocode_cached envOk
        (reverse_geocode_cached envOk emptyGeoState 0 0 0).2 100 0 0).2).networkCalls =
      ((reverse_geocode_cached envOk emptyGeoState 0 0 0).2).networkCalls :=
  cache_idempotent_24h envOk 0 100 0 0 (by decide)

end CacheTheorems

/-! ## Normalizer theorems -/

/-- Helper: `a or b` for string values with empty-string default keeps the
string. -/
theorem pyOr_str_empty (s : String) : pyOr (.str s) (.str "") = .str s := by
  by_cases h : s = ""
  · subst h; rfl
  · simp [pyOr, truthy, String.isEmpty_iff, h]

/-- Helper: a successful key lookup means the dict is nonempty. -/
theorem jget_ne_nil {fields : List (String × JVal)} {k : String} {v : JVal}
    (h : jget fields k = some v) : fields ≠ [] := by
  intro hnil
  rw [hnil] at h
  simp [jget] at h

/-- A provider payload whose address carries an explicit `null` county
and a country string. -/
def exNullCountyData : JVal :=
  .obj [("address", .obj [("county", .null), ("country", .str "Zz")])]

/-- The normalized result of `exNullCountyData`. -/
def exNullCountyRes : AddressResult :=
  { country := .str "Zz"
    country_code := .str ""
    town := .str ""
    county := .null
    state := .str ""
    suburb := .str ""
    postcode := .str ""
    road := .str ""
    house_number := .str ""
    display_name := .str ""
    raw := exNullCountyData }

/-- Counterexample to C7: a provider payload whose `county` field is
JSON `null` normalizes to a result whose `county` is `None`, not the
empty string — `dict.get(key, "")` only substitutes the default when the
key is missing, not when its value is null. -/
theorem address_null_passthrough_cex :
    reverse_geocode_norm exNullCountyData = .ok (some exNullCountyRes) ∧
    exNullCountyRes.county = JVal.null ∧ JVal.null ≠ JVal.str "" := by
  refine ⟨by rfl, by rfl, fun h => JVal.noConfusion h⟩

/-- C7 (amended): for every payload carrying an address object, the
normalizer resolves locality as the first truthy of town/city/village,
state as state/province, suburb as suburb/neighbourhood (falsy values —
missing, null or empty — fall through, with empty string as final
default); the country code string is upper-cased, with empty string for a
missing/null/empty value; every *missing* direct field (country, county,
postcode, road, house number, display name) defaults to the empty string,
but a JSON `null` value of a direct field is passed through as null; the
raw payload is preserved unmodified. -/
theorem address_normalize_amended (fields address : List (String × JVal))
    (res : AddressResult)
    (ha : jget fields "address" = some (.obj address))
    (hres : reverse_geocode_norm (.obj fields) = .ok (some res)) :
    (res.raw = .obj fields) ∧
    (truthy (pyGet address "town") = true → res.town = pyGet address "town") ∧
    (truthy (pyGet address "town") = false → truthy (pyGet address "city") = true →
      res.town = pyGet address "city") ∧
    (truthy (pyGet address "town") = false → truthy (pyGet address "city") = false →
      truthy (pyGet address "village") = true → res.town = pyGet address "village") ∧
    (truthy (pyGet address "town") = false → truthy (pyGet address "city") = false →
      truthy (pyGet address "village") = false → res.town = .str "") ∧
    (truthy (pyGet address "state") = true → res.state = pyGet address "state") ∧
    (truthy (pyGet address "state") = false → truthy (pyGet address "province") = true →
      res.state = pyGet address "province") ∧
    (truthy (pyGet address "state") = false → truthy (pyGet address "province") = false →
      res.state = .str "") ∧
    (truthy (pyGet address "suburb") = true → res.suburb = pyGet address "suburb") ∧
    (truthy (pyGet address "suburb") = false →
      truthy (pyGet address "neighbourhood") = true →
      res.suburb = pyGet address "neighbourhood") ∧
    (truthy (pyGet address "suburb") = false →
      truthy (pyGet address "neighbourhood") = false → res.suburb = .str "") ∧
    (∀ s, jget address "country_code" = some (.str s) →
      res.country_code = .str (upperString s)) ∧
    (jget address "country_code" = none ∨ jget address "country_code" = some .null →
      res.country_code = .str "") ∧
    (∀ v, jget address "country" = some v → res.country = v) ∧
    (jget address "country" = none → res.country = .str "") ∧
    (∀ v, jget address "county" = some v → res.county = v) ∧
    (jget address "county" = none → res.county = .str "") ∧
    (∀ v, jget address "postcode" = some v → res.postcode = v) ∧
    (jget address "postcode" = none → res.postcode = .str "") ∧
    (∀ v, jget address "road" = some v → res.road = v) ∧
    (jget address "road" = none → res.road = .str "") ∧
    (∀ v, jget address "house_number" = some v → res.house_number = v) ∧
    (jget address "house_number" = none → res.house_number = .str "") ∧
    (∀ v, jget fields "display_name" = some v → res.display_name = v) ∧
    (jget fields "display_name" = none → res.display_name = .str "") := by
  have hfne : fields ≠ [] := jget_ne_nil ha
  have htr : truthy (.obj fields) = true := by
    simp [truthy, List.isEmpty_iff, hfne]
  have haddr : asObj (pyOr (pyGetD fields "address" (.obj [])) (.obj [])) =
      .ok address := by
    rw [pyGetD, ha]
    cases address with
    | nil => rfl
    | cons x xs => rfl
  have h0 : asObj (JVal.obj fields) = .ok fields := rfl
  unfold reverse_geocode_norm at hres
  rw [if_neg (by simp [htr])] at hres
  simp only [h0, haddr] at hres
  cases hcc : pyUpper (pyOr (pyGetD address "country_code" (.str "")) (.str "")) with
  | error e =>
    simp only [hcc] at hres
    exact absurd hres (by simp)
  | ok cc =>
    simp only [hcc] at hres
    have hrec := (Option.some.inj (Except.ok.inj hres)).symm
    subst hrec
    refine ⟨rfl, ?_, ?_, ?_, ?_, ?_, ?_, ?_, ?_, ?_, ?_, ?_, ?_, ?_, ?_, ?_, ?_,
      ?_, ?_, ?_, ?_, ?_, ?_, ?_, ?_⟩
    · intro h; simp [pyOr, h]
    · intro h1 h2; simp [pyOr, h1, h2]
    · intro h1 h2 h3; simp [pyOr, h1, h2, h3]
    · intro h1 h2 h3; simp [pyOr, h1, h2, h3]
    · intro h; simp [pyOr, h]
    · intro h1 h2; simp [pyOr, h1, h2]
    · intro h1 h2; simp [pyOr, h1, h2]
    · intro h; simp [pyOr, h]
    · intro h1 h2; simp [pyOr, h1, h2]
    · intro h1 h2; simp [pyOr, h1, h2]
    · intro s h
      rw [pyGetD, h, Option.getD_some, pyOr_str_empty] at hcc
      exact (Except.ok.inj hcc).symm
    · intro h
      rcases h with h | h <;> rw [pyGetD, h] at hcc
      · exact (Except.ok.inj hcc).symm
      · exact (Except.ok.inj hcc).symm
    · intro v h; simp [pyGetD, h]
    · intro h; simp [pyGetD, h]
    · intro v h; simp [pyGetD, h]
    · intro h; simp [pyGetD, h]
    · intro v h; simp [pyGetD, h]
    · intro h; simp [pyGetD, h]
    · intro v h; simp [pyGetD, h]
    · intro h; simp [pyGetD, h]
    · intro v h; simp [pyGetD, h]
    · intro h; simp [pyGetD, h]
    · intro v h; simp [pyGetD, h]
    · intro h; simp [pyGetD, h]

/-- The address object of the spec's Springfield example. -/
def exSpringfieldAddr : List (String × JVal) :=
  [("town", .str "Springfield"), ("country", .str "United States"),
   ("country_code", .str "us")]

/-- The provider payload of the spec's Springfield example. -/
def exSpringfieldFields : List (String × JVal) :=
  [("address", .obj exSpringfieldAddr)]

/-- The normalized result of the spec's Springfield example. -/
def exSpringfieldRes : AddressResult :=
  { country := .str "United States"
    country_code := .str "US"
    town := .str "Springfield"
    county := .str ""
    state := .str ""
    suburb := .str ""
    postcode := .str ""
    road := .str ""
    house_number := .str ""
    display_name := .str ""
    raw := .obj exSpringfieldFields }

/-- Witness for the amended C7: the Springfield payload normalizes with
`town = "Springfield"` and upper-cased `country_code = "US"`. -/
theorem address_normalize_amended_witness :
    exSpringfieldRes.town = .str "Springfield" ∧
    exSpringfieldRes.country_code = .str (upperString "us") := by
  have H := address_normalize_amended exSpringfieldFields exSpringfieldAddr
    exSpringfieldRes rfl (by rfl)
  exact ⟨H.2.1 rfl, H.2.2.2.2.2.2.2.2.2.2.2.1 "us" rfl⟩

/-! ## Capture-date decoding (`PhotoMetadataExtractor.get_date_taken`)

`datetime.strptime(s, fmt)` succeeds exactly when its per-directive
regular expression matches the whole string and the matched fields form a
valid `datetime`: `%Y` is exactly 4 digits, `%m` `%d` `%H` `%M` `%S` are
1-2 digits within their ranges (a leap second 60/61 passes the regex but
is rejected by the `datetime` constructor, so it is a net parse failure),
the date must exist in the proleptic Gregorian calendar and the year is
at least 1; `%z` is `Z` or a signed `HH[:]MM[[:]SS[.1-6 digits]]` offset
strictly below 24 hours. -/

/-- The date/time fields extracted by a successful parse. -/
structure DateTimeVal where
  year : Nat
  month : Nat
  day : Nat
  hour : Nat
  minute : Nat
  second : Nat
deriving DecidableEq, Repr

/-- Gregorian leap-year rule. -/
def isLeapYear (y : Nat) : Bool :=
  y % 4 == 0 && (y % 100 != 0 || y % 400 == 0)

/-- Days in a month of the proleptic Gregorian calendar. -/
def daysInMonth (y m : Nat) : Nat :=
  if m = 2 then (if isLeapYear y then 29 else 28)
  else if m = 4 ∨ m = 6 ∨ m = 9 ∨ m = 11 then 30
  else 31

/-- Split a maximal run of ASCII digits off the front. -/
def takeDigits : List Char → List Char × List Char
  | [] => ([], [])
  | c :: cs =>
    if c.isDigit then
      let t := takeDigits cs
      (c :: t.1, t.2)
    else ([], c :: cs)

/-- Numeric value of a digit run. -/
def digitsToNat (ds : List Char) : Nat :=
  ds.foldl (fun a c => 10 * a + (c.toNat - 48)) 0

/-- A 1- or 2-digit field (the following separator is never a digit, so
the maximal run must itself have length 1 or 2). -/
def parseNum12 (cs : List Char) : Option (Nat × List Char) :=
  let t := takeDigits cs
  if t.1.length = 1 ∨ t.1.length = 2 then some (digitsToNat t.1, t.2) else none

/-- A field of exactly `n` digits (`\d` repeated `n` times: further
digits may follow and belong to the next directive). -/
def parseNumExact (n : Nat) (cs : List Char) : Option (Nat × List Char) :=
  let pre := cs.take n
  if pre.length = n ∧ pre.all Char.isDigit then some (digitsToNat pre, cs.drop n)
  else none

/-- Require a literal character. -/
def expectChar (c : Char) : List Char → Option (List Char)
  | [] => none
  | x :: xs => if x = c then some xs else none

/-- The `%Y:%m:%d %H:%M:%S` prefix with the `datetime` validity checks. -/
def parseDatePrefix (cs : List Char) : Option (DateTimeVal × List Char) := do
  let (y, r1) ← parseNumExact 4 cs
  let r2 ← expectChar ':' r1
  let (mo, r3) ← parseNum12 r2
  let r4 ← expectChar ':' r3
  let (d, r5) ← parseNum12 r4
  let r6 ← expectChar ' ' r5
  let (h, r7) ← parseNum12 r6
  let r8 ← expectChar ':' r7
  let (mi, r9) ← parseNum12 r8
  let r10 ← expectChar ':' r9
  let (s, r11) ← parseNum12 r10
  if 1 ≤ y ∧ 1 ≤ mo ∧ mo ≤ 12 ∧ 1 ≤ d ∧ d ≤ daysInMonth y mo ∧
      h ≤ 23 ∧ mi ≤ 59 ∧ s ≤ 59 then
    some (⟨y, mo, d, h, mi, s⟩, r11)
  else none

/-- The `%z` directive: `Z`, or a sign, exactly 2 hour digits, an
optional colon, exactly 2 minute digits, optionally followed by an
optional colon and exactly 2 second digits with an optional fraction of
1-6 digits; the offset must be strictly below 24 hours. -/
def parseTz (cs : List Char) : Option (List Char) :=
  match cs with
  | [] => none
  | 'Z' :: r => some r
  | c :: r =>
    if c = '+' ∨ c = '-' then do
      let (h2, r1) ← parseNumExact 2 r
      let r2 := match expectChar ':' r1 with
        | some x => x
        | none => r1
      let (m2, r3) ← parseNumExact 2 r2
      let r4 := match expectChar ':' r3 with
        | some x => x
        | none => r3
      match parseNumExact 2 r4 with
      | some (s2, r5) =>
        if h2 * 3600 + m2 * 60 + s2 < 86400 then
          match r5 with
          | '.' :: r6 =>
            let t := takeDigits r6
            if 1 ≤ t.1.length ∧ t.1.length ≤ 6 then some t.2 else none
          | _ => some r5
        else none
      | none =>
        if h2 * 3600 + m2 * 60 < 86400 then some r3 else none
    else none

/-- `datetime.strptime(s, "%Y:%m:%d %H:%M:%S")`. -/
def parse_datetime_primary (s : String) : Option DateTimeVal :=
  match parseDatePrefix s.data with
  | some (d, []) => some d
  | _ => none

/-- `datetime.strptime(s, "%Y:%m:%d %H:%M:%S%z")`. -/
def parse_datetime_tz (s : String) : Option DateTimeVal :=
  match parseDatePrefix s.data with
  | some (d, rest) =>
    match parseTz rest with
    | some [] => some d
    | _ => none
  | none => none

/-- English month name, as `%B` renders it in the C locale. -/
def monthName : Nat → String
  | 1 => "January"
  | 2 => "February"
  | 3 => "March"
  | 4 => "April"
  | 5 => "May"
  | 6 => "June"
  | 7 => "July"
  | 8 => "August"
  | 9 => "September"
  | 10 => "October"
  | 11 => "November"
  | 12 => "December"
  | _ => ""

/-- Zero-padded 2-digit rendering, as `%d` does. -/
def pad2 (n : Nat) : String :=
  if n < 10 then "0" ++ toString n else toString n

/-- `dt.strftime("%d %B %Y")` (on Linux `%Y` has no zero padding). -/
def strftime_d_B_Y (d : DateTimeVal) : String :=
  pad2 d.day ++ " " ++ monthName d.month ++ " " ++ toString d.year

/-- The per-value body of `get_date_taken`: try the primary format, then
the timezone-suffixed format; on success render `%d %B %Y`, otherwise
return the raw string unchanged. -/
def formatDateValue (s : String) : String :=
  match parse_datetime_primary s with
  | some d => strftime_d_B_Y d
  | none =>
    match parse_datetime_tz s with
    | some d => strftime_d_B_Y d
    | none => s

/-- The prioritized source fields of `get_date_taken`. -/
def date_keys : List String :=
  ["EXIF DateTimeOriginal", "EXIF DateTimeDigitized", "Image DateTime"]

/-- The key loop of `get_date_taken`: the first present tag is used
(present `exifread` tag objects are truthy, so `if not v: continue`
never skips a present tag). -/
def get_date_taken_go (tags : String → Option String) : List String → Option String
  | [] => none
  | k :: rest =>
    match tags k with
    | none => get_date_taken_go tags rest
    | some s => some (formatDateValue s)

/-- `PhotoMetadataExtractor.get_date_taken` over the tag dict, viewed as
a map from tag name to the tag's string value. -/
def get_date_taken (tags : String → Option String) : Option String :=
  get_date_taken_go tags date_keys

/-- C9: the capture-date decoder uses the first present field of
original-capture, digitized, generic timestamp, in that order; a value in
`year:month:day hour:minute:second` form (optionally with a timezone
suffix) is rendered as zero-padded day, month name, year, and a value in
neither form is returned unmodified rather than dropped; all fields
missing gives absence. -/
theorem date_taken_priority_and_format :
    (∀ tags s, tags "EXIF DateTimeOriginal" = some s →
      get_date_taken tags = some (formatDateValue s)) ∧
    (∀ tags s, tags "EXIF DateTimeOriginal" = none →
      tags "EXIF DateTimeDigitized" = some s →
      get_date_taken tags = some (formatDateValue s)) ∧
    (∀ tags s, tags "EXIF DateTimeOriginal" = none →
      tags "EXIF DateTimeDigitized" = none → tags "Image DateTime" = some s →
      get_date_taken tags = some (formatDateValue s)) ∧
    (∀ tags, tags "EXIF DateTimeOriginal" = none →
      tags "EXIF DateTimeDigitized" = none → tags "Image DateTime" = none →
      get_date_taken tags = none) ∧
    (∀ s, parse_datetime_primary s = none → parse_datetime_tz s = none →
      formatDateValue s = s) ∧
    (∀ s d, parse_datetime_primary s = some d →
      formatDateValue s = strftime_d_B_Y d) ∧
    formatDateValue "2023:03:04 10:15:00" = "04 March 2023" ∧
    formatDateValue "2023:03:04 10:15:00+0200" = "04 March 2023" := by
  refine ⟨?_, ?_, ?_, ?_, ?_, ?_, by rfl, by rfl⟩
  · intro tags s h
    simp [get_date_taken, get_date_taken_go, date_keys, h]
  · intro tags s h1 h2
    simp [get_date_taken, get_date_taken_go, date_keys, h1, h2]
  · intro tags s h1 h2 h3
    simp [get_date_taken, get_date_taken_go, date_keys, h1, h2, h3]
  · intro tags h1 h2 h3
    simp [get_date_taken, get_date_taken_go, date_keys, h1, h2, h3]
  · intro s h1 h2
    simp [formatDateValue, h1, h2]
  · intro s d h
    simp [formatDateValue, h]

/-- A tag dict carrying only the original-capture timestamp of the spec's
example. -/
def exDateTags : String → Option String :=
  fun k => if k = "EXIF DateTimeOriginal" then some "2023:03:04 10:15:00" else none

/-- Witness for C9: the spec's example timestamp, carried by the
first-priority field, decodes to "04 March 2023". -/
theorem date_taken_priority_and_format_witness :
    get_date_taken exDateTags = some (formatDateValue "2023:03:04 10:15:00") ∧
    formatDateValue "2023:03:04 10:15:00" = "04 March 2023" :=
  ⟨date_taken_priority_and_format.1 exDateTags "2023:03:04 10:15:00" rfl,
   date_taken_priority_and_format.2.2.2.2.2.2.1⟩

end PhotoMap
